import Mathlib

set_option maxRecDepth 4000

/-!
Shallow embedding of `src/handler.py` (RunPod serverless adapter for a
ComfyUI-based WAN 2.1 seamless-loop video pipeline).

Python exceptions are modelled by `Except PyErr`; Python dicts by ordered
association lists with dict-style keyed assignment (`setKey`); the external
world (HTTP calls, the filesystem, the random module, uuid4) by explicit
oracle parameters collected in `Env`.  Side effects performed by the handler
are recorded in a trace of `Effect`s.  Python ints are `Int` (arbitrary
precision, exact arithmetic).
-/

namespace Wan

/-- Python exception classes raised or caught in `handler.py`.  The payload is
the message text (`str(e)`); for `KeyError`/`HTTPError` we keep the key /
status code (message rendering of those two is approximated). -/
inductive PyErr where
  | keyError (key : String)
  | runtimeError (msg : String)
  | timeoutError (msg : String)
  | valueError (msg : String)
  | httpError (status : Nat)
  | binasciiError (msg : String)
deriving DecidableEq

instance {ε α : Type} [DecidableEq ε] [DecidableEq α] : DecidableEq (Except ε α) := fun a b =>
  match a, b with
  | .error e1, .error e2 =>
    if h : e1 = e2 then .isTrue (congrArg Except.error h)
    else .isFalse (fun hc => h (by injection hc))
  | .error _, .ok _ => .isFalse (fun hc => Except.noConfusion hc)
  | .ok _, .error _ => .isFalse (fun hc => Except.noConfusion hc)
  | .ok a1, .ok a2 =>
    if h : a1 = a2 then .isTrue (congrArg Except.ok h)
    else .isFalse (fun hc => h (by injection hc))

/-- `str(e)` as used by the top-level `except` block of `handler`. -/
def pyMsg : PyErr → String
  | .keyError k => "KeyError: " ++ k
  | .runtimeError m => m
  | .timeoutError m => m
  | .valueError m => m
  | .httpError status => toString status ++ " HTTP Error"
  | .binasciiError m => m

/-- Dict lookup on an ordered association list (Python `d[k]` / `k in d`). -/
def lookupKey {α : Type} : List (String × α) → String → Option α
  | [], _ => none
  | (k0, v0) :: rest, k => if k0 = k then some v0 else lookupKey rest k

/-- Dict keyed assignment `d[k] = v`: replace the first binding of `k` in
place, else append (Python dicts keep insertion order). -/
def setKey {α : Type} : List (String × α) → String → α → List (String × α)
  | [], k, v => [(k, v)]
  | (k0, v0) :: rest, k, v =>
      if k0 = k then (k, v) :: rest else (k0, v0) :: setKey rest k v

/-- `str.startswith` (handler.py line 67). -/
def startswith (s pre : String) : Bool :=
  List.isPrefixOf pre.toList s.toList

/-- `str.endswith`, needed by the `os.path.join` model. -/
def endswith (s suf : String) : Bool :=
  List.isSuffixOf suf.toList s.toList

/-- `os.path.join` for two POSIX components, following CPython:
an absolute second component replaces the path; otherwise a separator is
inserted unless the accumulated path is empty or already ends in one. -/
def pathJoin (a b : String) : String :=
  if startswith b "/" then b
  else if a = "" then b
  else if endswith a "/" then a ++ b
  else a ++ "/" ++ b

/-- handler.py line 20. -/
def COMFYUI_PATH : String := "/workspace/ComfyUI"

/-- handler.py line 22. -/
def COMFYUI_PORT : Nat := 8188

/-- handler.py line 23: `os.path.join(COMFYUI_PATH, "input")`. -/
def INPUT_DIR : String := pathJoin COMFYUI_PATH "input"

/-- handler.py line 24: `os.path.join(COMFYUI_PATH, "output")`. -/
def OUTPUT_DIR : String := pathJoin COMFYUI_PATH "output"

/-- Value of a base64 alphabet character (None for non-alphabet chars,
which CPython `binascii.a2b_base64` skips in non-strict mode). -/
def b64charVal (c : Char) : Option Nat :=
  if 65 ≤ c.toNat ∧ c.toNat ≤ 90 then some (c.toNat - 65)
  else if 97 ≤ c.toNat ∧ c.toNat ≤ 122 then some (c.toNat - 97 + 26)
  else if 48 ≤ c.toNat ∧ c.toNat ≤ 57 then some (c.toNat - 48 + 52)
  else if c = '+' then some 62
  else if c = '/' then some 63
  else none

/-- Decode a list of 6-bit values (one full quad yields 3 bytes; a trailing
pair or triple yields the bytes covered by its high bits). -/
def b64quads : List Nat → List Nat
  | a :: b :: c :: d :: rest =>
      (a * 4 + b / 16) :: ((b % 16) * 16 + c / 4) :: ((c % 4) * 64 + d) :: b64quads rest
  | [a, b] => [a * 4 + b / 16]
  | [a, b, c] => [a * 4 + b / 16, (b % 16) * 16 + c / 4]
  | _ => []

/-- `base64.b64decode` on the characters of the payload: non-alphabet junk is
ignored, the count of significant characters (data plus `=` padding) must be a
multiple of 4, data ends at the first `=`. -/
def b64decode (cs : List Char) : Except PyErr (List Nat) :=
  let sig := cs.filter (fun c => (b64charVal c).isSome || c == '=')
  if sig.length % 4 = 0 then
    let data := (sig.takeWhile (fun c => c ≠ '=')).filterMap b64charVal
    if data.length % 4 = 1 then
      .error (.binasciiError "Invalid base64-encoded string")
    else
      .ok (b64quads data)
  else
    .error (.binasciiError "Incorrect padding")

/-- Base64 alphabet character for a 6-bit value. -/
def b64chr (n : Nat) : Char :=
  if n < 26 then Char.ofNat (65 + n)
  else if n < 52 then Char.ofNat (97 + (n - 26))
  else if n < 62 then Char.ofNat (48 + (n - 52))
  else if n = 62 then '+'
  else '/'

/-- `base64.b64encode(...).decode("utf-8")` on a byte list. -/
def b64encodeChars : List Nat → List Char
  | [] => []
  | [a] => [b64chr ((a % 256) / 4), b64chr ((a % 256) % 4 * 16), '=', '=']
  | [a, b] =>
      [b64chr ((a % 256) / 4), b64chr ((a % 256) % 4 * 16 + (b % 256) / 16),
       b64chr ((b % 256) % 16 * 4), '=']
  | a :: b :: c :: rest =>
      b64chr ((a % 256) / 4) :: b64chr ((a % 256) % 4 * 16 + (b % 256) / 16) ::
      b64chr ((b % 256) % 16 * 4 + (c % 256) / 64) :: b64chr ((c % 256) % 64) ::
      b64encodeChars rest

/-- handler.py lines 205-208, the pure encoding part of `encode_file_base64`. -/
def b64encode (bytes : List Nat) : String :=
  String.mk (b64encodeChars bytes)

/-- handler.py lines 76-77: `if "," in image_data: image_data =
image_data.split(",", 1)[1]` — drop everything up to and including the
first comma when one is present. -/
def stripHeader (cs : List Char) : List Char :=
  if ',' ∈ cs then (cs.dropWhile (fun c => c ≠ ',')).drop 1 else cs

/-- handler.py lines 62-82: `save_input_image`.  The HTTP GET is an oracle
`fetch : url ↦ (status, body)` (the final response after redirect handling;
a network failure is an `Except.error`).  The result pairs the returned value
with the list of file writes `(path, bytes)` actually performed, so that
"raises before any file is written" is a statement about the write list.
`response.raise_for_status()` raises exactly for 4xx/5xx statuses. -/
def save_input_image (image_data : String) (filename : String)
    (fetch : String → Except PyErr (Nat × List Nat)) :
    Except PyErr String × List (String × List Nat) :=
  if startswith image_data "http://" || startswith image_data "https://" then
    match fetch image_data with
    | .error e => (.error e, [])
    | .ok (status, body) =>
      if 400 ≤ status ∧ status < 600 then (.error (.httpError status), [])
      else (.ok filename, [(pathJoin INPUT_DIR filename, body)])
  else
    match b64decode (stripHeader image_data.toList) with
    | .error e => (.error e, [])
    | .ok bytes => (.ok filename, [(pathJoin INPUT_DIR filename, bytes)])

/-- A node input value in the workflow job-graph (string or int). -/
inductive WVal where
  | s (v : String)
  | i (v : Int)
deriving DecidableEq

/-- A workflow node: we model only its `"inputs"` dict (the `class_type`
field is never touched by the adapter). -/
structure Node where
  inputs : List (String × WVal)
deriving DecidableEq

/-- The job-graph template: a dict from node identifier to node. -/
def Workflow : Type := List (String × Node)

instance : DecidableEq Workflow := by
  unfold Workflow
  infer_instance

/-- `workflow[nid]["inputs"][field]` as a read. -/
def getNodeInput (wf : Workflow) (nid field : String) : Option WVal :=
  match lookupKey wf nid with
  | some node => lookupKey node.inputs field
  | none => none

/-- `workflow[nid]["inputs"][field] = v`: a missing node id raises
`KeyError` exactly as the Python subscript does. -/
def setNodeInput (wf : Workflow) (nid field : String) (v : WVal) :
    Except PyErr Workflow :=
  match lookupKey wf nid with
  | none => .error (.keyError nid)
  | some node => .ok (setKey wf nid ⟨setKey node.inputs field v⟩)

/-- The `params` dict built by `handler` and consumed by `modify_workflow`;
optional fields model `dict.get` with defaults. -/
structure Params where
  image_filename : Option String
  prompt : Option String
  seed : Option Int
  frame_count : Option Int
  fps : Option Int
deriving DecidableEq

/-- handler.py lines 91-123: `modify_workflow`.  `randDefault` is the value
`random.randint(0, 2**32 - 1)` would return for the seed default draw and
`uuidHex` the value of `uuid.uuid4().hex` for the filename-prefix draw; both
are made explicit parameters so the function is a pure Lean function. -/
def modify_workflow (workflow : Workflow) (params : Params)
    (randDefault : Int) (uuidHex : String) : Except PyErr Workflow :=
  Except.bind (setNodeInput workflow "52" "image"
      (WVal.s (params.image_filename.getD "input.png"))) (fun w1 =>
  Except.bind (setNodeInput w1 "102" "image"
      (WVal.s (params.image_filename.getD "input.png"))) (fun w2 =>
  Except.bind (setNodeInput w2 "6" "text"
      (WVal.s (params.prompt.getD ""))) (fun w3 =>
  Except.bind (setNodeInput w3 "3" "seed"
      (WVal.i (params.seed.getD randDefault))) (fun w4 =>
  Except.bind (setNodeInput w4 "59" "length"
      (WVal.i (params.frame_count.getD 21))) (fun w5 =>
  Except.bind (setNodeInput w5 "69" "length"
      (WVal.i (params.frame_count.getD 21 - 1))) (fun w6 =>
  Except.bind (setNodeInput w6 "61" "temporal_size"
      (WVal.i (params.frame_count.getD 21 + 7))) (fun w7 =>
  Except.bind (setNodeInput w7 "126" "fps"
      (WVal.i (params.fps.getD 12))) (fun w8 =>
  setNodeInput w8 "126" "filename_prefix"
      (WVal.s ("seamless_loop_" ++ String.mk (uuidHex.toList.take 8)))))))))))

/-- The JSON body of the `POST /prompt` response, restricted to the keys
`queue_prompt` inspects (`error` and `prompt_id`); an `Option` field models
key presence. -/
structure QueueResp where
  error : Option String
  prompt_id : Option String
deriving DecidableEq

/-- Python-style rendering of the (modelled) response dict, used in the
"unexpected payload" message. -/
def renderQueueResp (r : QueueResp) : String :=
  "error=" ++ (r.error.getD "None") ++ ", prompt_id=" ++ (r.prompt_id.getD "None")

/-- handler.py lines 126-143: `queue_prompt` applied to the parsed response
body.  The error check comes first, then the `prompt_id` presence check. -/
def queue_prompt (r : QueueResp) : Except PyErr String :=
  match r.error with
  | some e => .error (.runtimeError ("ComfyUI rejected prompt: " ++ e))
  | none =>
    match r.prompt_id with
    | none => .error (.runtimeError ("No prompt_id in response: " ++ renderQueueResp r))
    | some pid => .ok pid

/-- One entry of a node's output manifest (`{"filename": ..., "subfolder":
...}`); `Option` fields model `dict.get`. -/
structure OutEntry where
  filename : Option String
  subfolder : Option String
deriving DecidableEq

/-- A node's produced outputs: the optional `"gifs"` (animated) and
`"images"` lists. -/
structure NodeOutput where
  gifs : Option (List OutEntry)
  images : Option (List OutEntry)
deriving DecidableEq

/-- The `"status"` record of a history entry. -/
structure HStatus where
  status_str : Option String
  messages : Option (List String)
deriving DecidableEq

/-- A completed job's history record: optional `"status"` and the output
manifest (`history.get("outputs", {})`, absence modelled as `[]`). -/
structure History where
  status : Option HStatus
  outputs : List (String × NodeOutput)
deriving DecidableEq

/-- One answer of the `GET /history/{id}` endpoint: a network error
(swallowed by the poll loop) or an HTTP response with status code and parsed
body, a mapping from prompt id to history record. -/
inductive PollResult where
  | netErr
  | resp (status : Nat) (body : List (String × History))
deriving DecidableEq

/-- handler.py lines 150-161, one-second-per-iteration poll loop: iteration
`t` consumes attempt `responses t`; the `while time.time() - start_time <
timeout` guard allows `timeout` iterations. -/
def wait_go (pid : String) (responses : Nat → PollResult) (timeout : Nat) :
    Nat → Nat → Except PyErr History
  | 0, _ =>
      .error (.timeoutError ("Prompt " ++ pid ++ " did not complete within "
        ++ toString timeout ++ " seconds"))
  | fuel + 1, t =>
    match responses t with
    | .netErr => wait_go pid responses timeout fuel (t + 1)
    | .resp status body =>
      if status == 200 then
        match lookupKey body pid with
        | some hist => .ok hist
        | none => wait_go pid responses timeout fuel (t + 1)
      else wait_go pid responses timeout fuel (t + 1)

/-- handler.py lines 146-163: `wait_for_completion` (default timeout 600). -/
def wait_for_completion (pid : String) (responses : Nat → PollResult)
    (timeout : Nat) : Except PyErr History :=
  wait_go pid responses timeout timeout 0

/-- The decision a single poll makes about one response: a history record is
produced exactly when the HTTP status is 200 and the prompt id is a key of
the returned mapping; network errors and other statuses yield nothing. -/
def pollAnswer (pid : String) : PollResult → Option History
  | .netErr => none
  | .resp status body => if status == 200 then lookupKey body pid else none

/-- handler.py lines 189-200 inner loops: first entry of an output list
whose `filename` is present and non-empty (Python truthiness), joined under
`OUTPUT_DIR` with its `subfolder` (default `""`). -/
def first_file : List OutEntry → Option String
  | [] => none
  | e :: rest =>
    match e.filename with
    | some f =>
        if f ≠ "" then some (pathJoin (pathJoin OUTPUT_DIR (e.subfolder.getD "")) f)
        else first_file rest
    | none => first_file rest

/-- handler.py lines 183-200 outer loop: scan nodes in manifest order; per
node try the `"gifs"` list first and fall through to `"images"`; first match
wins. -/
def scan_outputs : List (String × NodeOutput) → Option String
  | [] => none
  | (_, no) :: rest =>
    match no.gifs with
    | some gifs =>
      match first_file gifs with
      | some p => some p
      | none =>
        match no.images with
        | some images =>
          match first_file images with
          | some p => some p
          | none => scan_outputs rest
        | none => scan_outputs rest
    | none =>
      match no.images with
      | some images =>
        match first_file images with
        | some p => some p
        | none => scan_outputs rest
      | none => scan_outputs rest

/-- handler.py lines 172-177: does the history record carry an error status? -/
def statusIsError (h : History) : Bool :=
  match h.status with
  | some st => st.status_str == some "error"
  | none => false

/-- Comma-joined rendering of the status messages (Python would print the
list repr; only used inside the error message text). -/
def renderMsgs : List String → String
  | [] => ""
  | [m] => m
  | m :: rest => m ++ ", " ++ renderMsgs rest

/-- handler.py lines 166-202: `get_output_file`. -/
def get_output_file (h : History) : Except PyErr String :=
  if statusIsError h then
    .error (.runtimeError ("ComfyUI execution failed: "
      ++ renderMsgs ((h.status.map (fun st => st.messages.getD [])).getD [])))
  else
    match scan_outputs h.outputs with
    | some p => .ok p
    | none => .error (.valueError "No output file found in history")

/-- The job payload: `job["input"]` may be absent (KeyError), and each input
field is optional. -/
structure JobInput where
  image : Option String
  prompt : Option String
  frame_count : Option Int
  fps : Option Int
  seed : Option Int
deriving DecidableEq

/-- The inbound job object. -/
structure Job where
  input : Option JobInput
deriving DecidableEq

/-- Externally visible side effects of one handler invocation, in order. -/
inductive Effect where
  | startServer
  | writeFile (path : String) (bytes : List Nat)
  | submit (wf : Workflow)
  | poll (pid : String)
  | readFile (path : String)
  | removeFile (path : String)
deriving DecidableEq

/-- The handler's returned JSON object: success shape or error shape. -/
inductive Response where
  | ok (video : String) (seed : Int)
  | err (msg : String)
deriving DecidableEq

/-- Oracles for everything outside the adapter: server bootstrap outcome,
HTTP GET for image URLs, the workflow template file, the `POST /prompt`
response body, the polling responses, output-file reads, and the values of
the per-invocation random draws (`random.randint` in `handler`, the unused
`random.randint` default inside `modify_workflow`, and the two
`uuid.uuid4().hex` draws). -/
structure Env where
  startOk : Bool
  fetch : String → Except PyErr (Nat × List Nat)
  template : Except PyErr Workflow
  queueResp : QueueResp
  pollResp : Nat → PollResult
  readOut : String → Except PyErr (List Nat)
  randSeed : Int
  randMW : Int
  uuidIn : String
  uuidMW : String

/-- handler.py lines 243-287: the body of the `try` block after input
validation and the bootstrap check.  `startTrace` is `[.startServer]` when
the server was started by this invocation.  Returns the raw
`Except`-result together with the effect trace and the final process flag. -/
def handlerAfterStart (ji : JobInput) (image_data : String) (env : Env)
    (startTrace : List Effect) : Except PyErr Response × List Effect × Bool :=
  match save_input_image image_data
      ("input_" ++ String.mk (env.uuidIn.toList.take 8) ++ ".png") env.fetch with
  | (.error e, ws) =>
      (.error e, startTrace ++ ws.map (fun w => Effect.writeFile w.1 w.2), true)
  | (.ok _, ws) =>
    match env.template with
    | .error e =>
        (.error e, startTrace ++ ws.map (fun w => Effect.writeFile w.1 w.2), true)
    | .ok workflow0 =>
      match modify_workflow workflow0
          { image_filename := some ("input_" ++ String.mk (env.uuidIn.toList.take 8) ++ ".png"),
            prompt := some (ji.prompt.getD ""),
            seed := some (ji.seed.getD env.randSeed),
            frame_count := some (ji.frame_count.getD 21),
            fps := some (ji.fps.getD 12) } env.randMW env.uuidMW with
      | .error e =>
          (.error e, startTrace ++ ws.map (fun w => Effect.writeFile w.1 w.2), true)
      | .ok wf =>
        match queue_prompt env.queueResp with
        | .error e =>
            (.error e, startTrace ++ ws.map (fun w => Effect.writeFile w.1 w.2)
              ++ [Effect.submit wf], true)
        | .ok pid =>
          match wait_for_completion pid env.pollResp 600 with
          | .error e =>
              (.error e, startTrace ++ ws.map (fun w => Effect.writeFile w.1 w.2)
                ++ [Effect.submit wf, Effect.poll pid], true)
          | .ok history =>
            match get_output_file history with
            | .error e =>
                (.error e, startTrace ++ ws.map (fun w => Effect.writeFile w.1 w.2)
                  ++ [Effect.submit wf, Effect.poll pid], true)
            | .ok output_file =>
              match env.readOut output_file with
              | .error e =>
                  (.error e, startTrace ++ ws.map (fun w => Effect.writeFile w.1 w.2)
                    ++ [Effect.submit wf, Effect.poll pid, Effect.readFile output_file], true)
              | .ok bytes =>
                  (.ok (.ok (b64encode bytes) (ji.seed.getD env.randSeed)),
                   startTrace ++ ws.map (fun w => Effect.writeFile w.1 w.2)
                     ++ [Effect.submit wf, Effect.poll pid, Effect.readFile output_file,
                         Effect.removeFile (pathJoin INPUT_DIR
                           ("input_" ++ String.mk (env.uuidIn.toList.take 8) ++ ".png"))], true)

/-- handler.py lines 236-287: the `try` block of `handler`.  `proc` is the
`comfyui_process is None` global (true when the server is already running);
it is updated only when a start succeeds, exactly as the Python global. -/
def handlerBody (job : Job) (env : Env) (proc : Bool) :
    Except PyErr Response × List Effect × Bool :=
  match job.input with
  | none => (.error (.keyError "input"), [], proc)
  | some ji =>
    match ji.image with
    | none => (.ok (.err "Missing required field: image"), [], proc)
    | some image_data =>
      if proc then handlerAfterStart ji image_data env []
      else if env.startOk then handlerAfterStart ji image_data env [Effect.startServer]
      else (.error (.runtimeError "ComfyUI server failed to start within timeout"),
            [Effect.startServer], false)

/-- The `except Exception` clause: an uncaught Python exception becomes the
uniform error dict. -/
def resolveResponse : Except PyErr Response → Response
  | .ok r => r
  | .error e => .err (pyMsg e)

/-- handler.py lines 215-294: `handler` — the full adapter entry point,
returning the response, the effect trace and the updated process flag. -/
def handler (job : Job) (env : Env) (proc : Bool) :
    Response × List Effect × Bool :=
  (resolveResponse (handlerBody job env proc).1, (handlerBody job env proc).2)

/-!
Spec-side definitions for the result-extraction claim: the first output
entry of a list with a non-empty filename, resolved to a path. -/

/-- First entry of an output list carrying a non-empty filename, resolved
under the output root with its subfolder (default empty). -/
def firstValidEntry (entries : List OutEntry) : Option String :=
  entries.findSome? (fun e =>
    match e.filename with
    | some f =>
        if f ≠ "" then some (pathJoin (pathJoin OUTPUT_DIR (e.subfolder.getD "")) f)
        else none
    | none => none)

/-- Per-node extraction as the claim words it: consult only the first list
found — the animated list when the key is present, else the image list. -/
def nodeFirstListOnly (no : NodeOutput) : Option String :=
  match no.gifs with
  | some l => firstValidEntry l
  | none => no.images.bind firstValidEntry

/-- Whole-manifest extraction as the claim words it: nodes in manifest
order, first match wins. -/
def claimExtract (outputs : List (String × NodeOutput)) : Option String :=
  outputs.findSome? (fun kv => nodeFirstListOnly kv.2)

/-- Per-node extraction as amended: the animated list is tried first and the
image list is consulted when the animated list is absent or has no entry
with a non-empty filename. -/
def nodeFirstMatchAmended (no : NodeOutput) : Option String :=
  match no.gifs.bind firstValidEntry with
  | some p => some p
  | none => no.images.bind firstValidEntry

/-- Whole-manifest extraction as amended: nodes in manifest order, first
match wins. -/
def amendedExtract (outputs : List (String × NodeOutput)) : Option String :=
  outputs.findSome? (fun kv => nodeFirstMatchAmended kv.2)

/-!
Concrete fixtures used by witnesses and counterexamples. -/

/-- A template containing the eight node coordinates the adapter writes. -/
def wfT : Workflow :=
  [("3", ⟨[("seed", WVal.i 0)]⟩),
   ("6", ⟨[("text", WVal.s "")]⟩),
   ("52", ⟨[("image", WVal.s "input.png")]⟩),
   ("59", ⟨[("length", WVal.i 21), ("width", WVal.i 512)]⟩),
   ("61", ⟨[("temporal_size", WVal.i 28)]⟩),
   ("69", ⟨[("length", WVal.i 20)]⟩),
   ("102", ⟨[("image", WVal.s "input.png")]⟩),
   ("126", ⟨[("fps", WVal.i 12), ("filename_prefix", WVal.s "loop")]⟩),
   ("999", ⟨[("steps", WVal.i 30)]⟩)]

/-- A fully populated parameter dict. -/
def pC1 : Params :=
  { image_filename := some "in.png", prompt := some "sway gently",
    seed := some 7, frame_count := some 25, fps := some 12 }

/-- The parametrized template produced from `wfT` and `pC1`. -/
def wfT2 : Workflow :=
  (modify_workflow wfT pC1 0 "0123456789abcdef").toOption.getD []

/-- A history record whose single node carries both an animated and an image
list, each with a valid first entry. -/
def histBoth : History :=
  ⟨none, [("126", ⟨some [⟨some "anim.webp", none⟩], some [⟨some "img.png", none⟩]⟩)]⟩

/-- A history record whose single node carries an animated list with no
valid entry (empty filename) and an image list with a valid entry. -/
def histFallthrough : History :=
  ⟨none, [("126", ⟨some [⟨some "", none⟩], some [⟨some "a.webp", none⟩]⟩)]⟩

/-- A polling oracle: a network error, then a non-200 response, then a 200
response without the job id, then a hit. -/
def pollSeq : Nat → PollResult := fun t =>
  if t = 0 then .netErr
  else if t = 1 then .resp 500 []
  else if t = 2 then .resp 200 []
  else .resp 200 [("p1", ⟨none, []⟩)]

/-- A fetch oracle: 200 with a body for the good URL, 404 otherwise. -/
def fetchW : String → Except PyErr (Nat × List Nat) := fun u =>
  if u = "http://good/img.png" then .ok (200, [9, 9, 9])
  else .ok (404, [])

/-- A fetch oracle always answering 304 Not Modified (a non-2xx status that
`raise_for_status` does not raise on). -/
def fetch304 : String → Except PyErr (Nat × List Nat) := fun _ => .ok (304, [7, 7])

/-- A job without the `input` key. -/
def jobNoInput : Job := ⟨none⟩

/-- A job input with no seed supplied (the handler draws one). -/
def jobOkInput : JobInput :=
  ⟨some "http://good/img.png", some "sway gently", some 25, some 12, none⟩

/-- The corresponding job object. -/
def jobOk : Job := ⟨some jobOkInput⟩

/-- An environment in which every step succeeds. -/
def envOk : Env :=
  { startOk := true, fetch := fetchW, template := .ok wfT,
    queueResp := ⟨none, some "p1"⟩,
    pollResp := fun _ => .resp 200 [("p1", histBoth)],
    readOut := fun _ => .ok [1, 2, 3],
    randSeed := 42, randMW := 0,
    uuidIn := "abcdefabcdefabcd", uuidMW := "0123456789abcdef" }

/-- An environment whose submission response carries an error body. -/
def envErrQ : Env :=
  { envOk with queueResp := ⟨some "boom", none⟩ }

/-!
Helper lemmas about dict assignment and workflow field updates. -/

theorem lookupKey_setKey_self {α : Type} (m : List (String × α)) (k : String) (v : α) :
    lookupKey (setKey m k v) k = some v := by
  induction m with
  | nil => simp [setKey, lookupKey]
  | cons hd tl ih =>
    obtain ⟨k0, v0⟩ := hd
    by_cases hk : k0 = k
    · simp [setKey, hk, lookupKey]
    · simp [setKey, hk, lookupKey, ih]

theorem lookupKey_setKey_ne {α : Type} (m : List (String × α)) (k k2 : String) (v : α)
    (h : k2 ≠ k) : lookupKey (setKey m k2 v) k = lookupKey m k := by
  induction m with
  | nil => simp [setKey, lookupKey, h]
  | cons hd tl ih =>
    obtain ⟨k0, v0⟩ := hd
    by_cases hk : k0 = k2
    · subst hk
      simp [setKey, lookupKey, h]
    · by_cases hk2 : k0 = k
      · simp [setKey, hk, lookupKey, hk2, Ne.symm h]
      · simp [setKey, hk, lookupKey, hk2, ih]

theorem setNodeInput_get_self {wf wf2 : Workflow} {n f : String} {v : WVal}
    (h : setNodeInput wf n f v = .ok wf2) : getNodeInput wf2 n f = some v := by
  unfold setNodeInput at h
  cases hl : lookupKey wf n with
  | none => rw [hl] at h; exact Except.noConfusion h
  | some node =>
    rw [hl] at h
    injection h with h
    subst h
    unfold getNodeInput
    rw [lookupKey_setKey_self]
    exact lookupKey_setKey_self _ _ _

theorem setNodeInput_lookup_other {wf wf2 : Workflow} {n2 f2 : String} {v : WVal}
    (n : String) (hne : n2 ≠ n) (h : setNodeInput wf n2 f2 v = .ok wf2) :
    lookupKey wf2 n = lookupKey wf n := by
  unfold setNodeInput at h
  cases hl : lookupKey wf n2 with
  | none => rw [hl] at h; exact Except.noConfusion h
  | some node =>
    rw [hl] at h
    injection h with h
    subst h
    exact lookupKey_setKey_ne _ _ _ _ hne

theorem setNodeInput_get_other {wf wf2 : Workflow} {n2 f2 : String} {v : WVal}
    (n f : String) (hne : n2 ≠ n) (h : setNodeInput wf n2 f2 v = .ok wf2) :
    getNodeInput wf2 n f = getNodeInput wf n f := by
  unfold getNodeInput
  rw [setNodeInput_lookup_other n hne h]

theorem except_bind_ok {α β : Type} {x : Except PyErr α} {f : α → Except PyErr β} {b : β}
    (h : Except.bind x f = .ok b) : ∃ a, x = .ok a ∧ f a = .ok b := by
  cases x with
  | error e => exact Except.noConfusion h
  | ok a => exact ⟨a, rfl, h⟩

/-- Characterization of a successful `modify_workflow` run: the values
written at the seed and frame-count-derived coordinates, and the frame
condition that no other node is touched. -/
theorem modify_workflow_fields {wf wf2 : Workflow} {p : Params} {rd : Int} {uh : String}
    (h : modify_workflow wf p rd uh = .ok wf2) :
    getNodeInput wf2 "3" "seed" = some (WVal.i (p.seed.getD rd)) ∧
    getNodeInput wf2 "59" "length" = some (WVal.i (p.frame_count.getD 21)) ∧
    getNodeInput wf2 "69" "length" = some (WVal.i (p.frame_count.getD 21 - 1)) ∧
    getNodeInput wf2 "61" "temporal_size" = some (WVal.i (p.frame_count.getD 21 + 7)) ∧
    ∀ n : String, n ≠ "52" → n ≠ "102" → n ≠ "6" → n ≠ "3" → n ≠ "59" → n ≠ "69" →
      n ≠ "61" → n ≠ "126" → lookupKey wf2 n = lookupKey wf n := by
  unfold modify_workflow at h
  obtain ⟨w1, h1, h⟩ := except_bind_ok h
  obtain ⟨w2, h2, h⟩ := except_bind_ok h
  obtain ⟨w3, h3, h⟩ := except_bind_ok h
  obtain ⟨w4, h4, h⟩ := except_bind_ok h
  obtain ⟨w5, h5, h⟩ := except_bind_ok h
  obtain ⟨w6, h6, h⟩ := except_bind_ok h
  obtain ⟨w7, h7, h⟩ := except_bind_ok h
  obtain ⟨w8, h8, h⟩ := except_bind_ok h
  refine ⟨?_, ?_, ?_, ?_, ?_⟩
  · rw [setNodeInput_get_other _ _ (by decide) h,
        setNodeInput_get_other _ _ (by decide) h8,
        setNodeInput_get_other _ _ (by decide) h7,
        setNodeInput_get_other _ _ (by decide) h6,
        setNodeInput_get_other _ _ (by decide) h5]
    exact setNodeInput_get_self h4
  · rw [setNodeInput_get_other _ _ (by decide) h,
        setNodeInput_get_other _ _ (by decide) h8,
        setNodeInput_get_other _ _ (by decide) h7,
        setNodeInput_get_other _ _ (by decide) h6]
    exact setNodeInput_get_self h5
  · rw [setNodeInput_get_other _ _ (by decide) h,
        setNodeInput_get_other _ _ (by decide) h8,
        setNodeInput_get_other _ _ (by decide) h7]
    exact setNodeInput_get_self h6
  · rw [setNodeInput_get_other _ _ (by decide) h,
        setNodeInput_get_other _ _ (by decide) h8]
    exact setNodeInput_get_self h7
  · intro n h52 h102 h6n h3n h59 h69 h61 h126
    rw [setNodeInput_lookup_other _ (Ne.symm h126) h,
        setNodeInput_lookup_other _ (Ne.symm h126) h8,
        setNodeInput_lookup_other _ (Ne.symm h61) h7,
        setNodeInput_lookup_other _ (Ne.symm h69) h6,
        setNodeInput_lookup_other _ (Ne.symm h59) h5,
        setNodeInput_lookup_other _ (Ne.symm h3n) h4,
        setNodeInput_lookup_other _ (Ne.symm h6n) h3,
        setNodeInput_lookup_other _ (Ne.symm h102) h2,
        setNodeInput_lookup_other _ (Ne.symm h52) h1]

/-- C1: for every frame_count `f` taken from the job parameters (default
21), template parametrization sets node 59's `length` to `f`, node 69's
`length` to exactly `f - 1`, and node 61's `temporal_size` to exactly
`f + 7`, with exact integer arithmetic and no rounding. -/
theorem c1_frame_count_fields (wf : Workflow) (p : Params) (rd : Int) (uh : String)
    (wf2 : Workflow) (h : modify_workflow wf p rd uh = .ok wf2) :
    getNodeInput wf2 "59" "length" = some (WVal.i (p.frame_count.getD 21)) ∧
    getNodeInput wf2 "69" "length" = some (WVal.i (p.frame_count.getD 21 - 1)) ∧
    getNodeInput wf2 "61" "temporal_size" = some (WVal.i (p.frame_count.getD 21 + 7)) :=
  ⟨(modify_workflow_fields h).2.1, (modify_workflow_fields h).2.2.1,
   (modify_workflow_fields h).2.2.2.1⟩

/-- Witness for C1 at frame_count 25: the three fields are 25, 24 and 32. -/
theorem c1_witness :
    modify_workflow wfT pC1 0 "0123456789abcdef" = .ok wfT2 ∧
    (getNodeInput wfT2 "59" "length" = some (WVal.i 25) ∧
     getNodeInput wfT2 "69" "length" = some (WVal.i 24) ∧
     getNodeInput wfT2 "61" "temporal_size" = some (WVal.i 32)) :=
  ⟨by decide, c1_frame_count_fields wfT pC1 0 "0123456789abcdef" wfT2 (by decide)⟩

/-- Counterexample for C8: with equal template and equal parameter set but
different values of the per-invocation `uuid.uuid4().hex` draw, the two
modified templates differ — parametrization is not a pure function of
(template, parameter set) alone. -/
theorem c8_counterexample :
    modify_workflow wfT pC1 0 "aaaaaaaaaaaaaaaa" ≠
      modify_workflow wfT pC1 0 "bbbbbbbbbbbbbbbb" := by decide

/-- C8 (amended): parametrization is a pure function of the template, the
parameter set and the two per-invocation random draws, and it modifies
nothing beyond the eight designated nodes of the passed-in template. -/
theorem c8_frame_condition (wf : Workflow) (p : Params) (rd : Int) (uh : String)
    (wf2 : Workflow) (h : modify_workflow wf p rd uh = .ok wf2) (n : String)
    (hn : n ∉ (["52", "102", "6", "3", "59", "69", "61", "126"] : List String)) :
    lookupKey wf2 n = lookupKey wf n := by
  simp only [List.mem_cons, List.not_mem_nil, or_false, not_or] at hn
  obtain ⟨h52, h102, h6n, h3n, h59, h69, h61, h126⟩ := hn
  exact (modify_workflow_fields h).2.2.2.2 n h52 h102 h6n h3n h59 h69 h61 h126

/-- Witness for the amended C8: node 999 of the fixture template is
untouched. -/
theorem c8_witness : lookupKey wfT2 "999" = lookupKey wfT "999" :=
  c8_frame_condition wfT pC1 0 "0123456789abcdef" wfT2 (by decide) "999" (by decide)

/-!
Result extraction: the per-list scan of the code equals the spec-side
first-valid-entry search, and the per-node scan equals the amended
fall-through search. -/

theorem first_file_eq (l : List OutEntry) : first_file l = firstValidEntry l := by
  induction l with
  | nil => rfl
  | cons e rest ih =>
    simp only [first_file, firstValidEntry, List.findSome?_cons]
    cases hf : e.filename with
    | none => simpa [firstValidEntry] using ih
    | some f =>
      by_cases hemp : f = ""
      · simpa [hemp, firstValidEntry] using ih
      · simp [hemp]

theorem scan_outputs_eq (outputs : List (String × NodeOutput)) :
    scan_outputs outputs = amendedExtract outputs := by
  induction outputs with
  | nil => rfl
  | cons kv rest ih =>
    obtain ⟨nid, no⟩ := kv
    simp only [scan_outputs, amendedExtract, List.findSome?_cons, nodeFirstMatchAmended]
    cases hg : no.gifs with
    | none =>
      cases hi : no.images with
      | none => simpa [amendedExtract] using ih
      | some images =>
        cases hfe : firstValidEntry images with
        | none => simpa [amendedExtract, first_file_eq, hfe] using ih
        | some p => simp [first_file_eq, hfe]
    | some gifs =>
      cases hfg : firstValidEntry gifs with
      | some p => simp [first_file_eq, hfg]
      | none =>
        cases hi : no.images with
        | none => simpa [amendedExtract, first_file_eq, hfg] using ih
        | some images =>
          cases hfe : firstValidEntry images with
          | none => simpa [amendedExtract, first_file_eq, hfg, hfe] using ih
          | some p => simp [first_file_eq, hfg, hfe]

/-- Counterexample for C2: on a node whose animated list is present but has
no entry with a non-empty filename while its image list has one, the code
falls through to the image list, whereas the claim ("within the first list
found") yields no match at all. -/
theorem c2_counterexample :
    get_output_file histFallthrough = .ok "/workspace/ComfyUI/output/a.webp" ∧
    claimExtract histFallthrough.outputs = none := by decide

/-- C2 (amended): for every completed job record without an error status,
result extraction scans output nodes in manifest order; for each node it
takes the animated list's first entry with a non-empty filename, and when
the animated list is absent or has no such entry it falls back to the
generic image list; the entry's subfolder (default empty) is joined under
the output root; across nodes the first match wins, and when no node
matches a not-found error is raised. -/
theorem c2_extraction (h : History) (hs : statusIsError h = false) :
    get_output_file h =
      (match amendedExtract h.outputs with
       | some p => Except.ok p
       | none => Except.error (PyErr.valueError "No output file found in history")) := by
  unfold get_output_file
  rw [hs, scan_outputs_eq]
  simp

/-- Witness for the amended C2: a node carrying both lists with valid
entries yields the animated list's first entry. -/
theorem c2_witness :
    statusIsError histBoth = false ∧
    get_output_file histBoth = .ok "/workspace/ComfyUI/output/anim.webp" := by
  refine ⟨by decide, ?_⟩
  rw [c2_extraction histBoth (by decide)]
  decide

/-!
Completion polling. -/

theorem wait_go_timeout_of_none (pid : String) (responses : Nat → PollResult)
    (timeout : Nat) :
    ∀ fuel t, (∀ j, t ≤ j → j < t + fuel → pollAnswer pid (responses j) = none) →
    wait_go pid responses timeout fuel t =
      .error (.timeoutError ("Prompt " ++ pid ++ " did not complete within "
        ++ toString timeout ++ " seconds")) := by
  intro fuel
  induction fuel with
  | zero => intro t _; rfl
  | succ f ih =>
    intro t hnone
    have h0 : pollAnswer pid (responses t) = none := hnone t le_rfl (by omega)
    have htl : ∀ j, t + 1 ≤ j → j < t + 1 + f → pollAnswer pid (responses j) = none :=
      fun j hj1 hj2 => hnone j (by omega) (by omega)
    cases hr : responses t with
    | netErr =>
      simp only [wait_go, hr]
      exact ih (t + 1) htl
    | resp status body =>
      rw [hr] at h0
      simp only [pollAnswer] at h0
      cases hb : status == 200 with
      | false =>
        simp only [wait_go, hr, hb, Bool.false_eq_true, if_false]
        exact ih (t + 1) htl
      | true =>
        rw [hb] at h0
        simp only [if_true] at h0
        simp [wait_go, hr, hb, h0]
        exact ih (t + 1) htl

theorem wait_go_ok_at (pid : String) (responses : Nat → PollResult) (timeout : Nat) :
    ∀ fuel t i h, i < fuel → pollAnswer pid (responses (t + i)) = some h →
    (∀ j, t ≤ j → j < t + i → pollAnswer pid (responses j) = none) →
    wait_go pid responses timeout fuel t = .ok h := by
  intro fuel
  induction fuel with
  | zero => intro t i h hi; omega
  | succ f ih =>
    intro t i h hi hhit hnone
    cases i with
    | zero =>
      cases hr : responses t with
      | netErr =>
        rw [Nat.add_zero, hr] at hhit
        exact Option.noConfusion hhit
      | resp status body =>
        rw [Nat.add_zero, hr] at hhit
        simp only [pollAnswer] at hhit
        cases hb : status == 200 with
        | false =>
          rw [hb] at hhit
          simp at hhit
        | true =>
          rw [hb] at hhit
          simp only [if_true] at hhit
          simp [wait_go, hr, hb, hhit]
    | succ i2 =>
      have h0 : pollAnswer pid (responses t) = none := hnone t le_rfl (by omega)
      have hhit2 : pollAnswer pid (responses (t + 1 + i2)) = some h := by
        have harith : t + 1 + i2 = t + (i2 + 1) := by omega
        rw [harith]
        exact hhit
      have hnone2 : ∀ j, t + 1 ≤ j → j < t + 1 + i2 → pollAnswer pid (responses j) = none :=
        fun j hj1 hj2 => hnone j (by omega) (by omega)
      cases hr : responses t with
      | netErr =>
        simp only [wait_go, hr]
        exact ih (t + 1) i2 h (by omega) hhit2 hnone2
      | resp status body =>
        rw [hr] at h0
        simp only [pollAnswer] at h0
        cases hb : status == 200 with
        | false =>
          simp only [wait_go, hr, hb, Bool.false_eq_true, if_false]
          exact ih (t + 1) i2 h (by omega) hhit2 hnone2
        | true =>
          rw [hb] at h0
          simp only [if_true] at h0
          simp [wait_go, hr, hb, h0]
          exact ih (t + 1) i2 h (by omega) hhit2 hnone2

/-- C4: for every submitted job identifier, polling returns that job's
history record as soon as the identifier appears as a key of a 200 history
response within the timeout; network errors and non-200 responses along the
way are swallowed and treated as not-yet-ready; if the identifier never
appears within the timeout, polling raises a timeout-specific error whose
constructor is distinct from every other failure type of the adapter. -/
theorem c4_polling (pid : String) (responses : Nat → PollResult) (timeout k : Nat)
    (h : History) :
    (k < timeout → pollAnswer pid (responses k) = some h →
      (∀ j, j < k → pollAnswer pid (responses j) = none) →
      wait_for_completion pid responses timeout = .ok h) ∧
    ((∀ j, j < timeout → pollAnswer pid (responses j) = none) →
      wait_for_completion pid responses timeout =
        .error (.timeoutError ("Prompt " ++ pid ++ " did not complete within "
          ++ toString timeout ++ " seconds"))) ∧
    (∀ m1 m2 : String, PyErr.timeoutError m1 ≠ PyErr.runtimeError m2 ∧
      PyErr.timeoutError m1 ≠ PyErr.valueError m2 ∧
      PyErr.timeoutError m1 ≠ PyErr.keyError m2 ∧
      PyErr.timeoutError m1 ≠ PyErr.binasciiError m2) := by
  refine ⟨?_, ?_, ?_⟩
  · intro hk hhit hnone
    unfold wait_for_completion
    refine wait_go_ok_at pid responses timeout timeout 0 k h hk ?_ ?_
    · simpa using hhit
    · intro j hj1 hj2
      exact hnone j (by omega)
  · intro hnone
    unfold wait_for_completion
    exact wait_go_timeout_of_none pid responses timeout timeout 0
      (fun j hj1 hj2 => hnone j (by omega))
  · intro m1 m2
    exact ⟨fun hc => PyErr.noConfusion hc, fun hc => PyErr.noConfusion hc,
      fun hc => PyErr.noConfusion hc, fun hc => PyErr.noConfusion hc⟩

/-- Witness for C4: with a network error, a 500 response and an id-less 200
response preceding the hit at attempt 3, polling returns the record. -/
theorem c4_witness :
    wait_for_completion "p1" pollSeq 10 = .ok ⟨none, []⟩ :=
  (c4_polling "p1" pollSeq 10 3 ⟨none, []⟩).1 (by decide) (by decide)
    (by decide)

/-!
Job submission. -/

/-- Polling effects never precede a successful submission: if the queue
response makes `queue_prompt` raise, no `poll` effect is in the trace. -/
theorem poll_notin_handlerAfterStart (ji : JobInput) (img : String) (env : Env)
    (st : List Effect) (hst : ∀ pid, Effect.poll pid ∉ st)
    (hq : ∀ pid, queue_prompt env.queueResp ≠ .ok pid) :
    ∀ pid2, Effect.poll pid2 ∉ (handlerAfterStart ji img env st).2.1 := by
  intro pid2
  unfold handlerAfterStart
  split
  · intro hmem
    simp only [List.mem_append, List.mem_map] at hmem
    rcases hmem with hmem | ⟨w, _, hw⟩
    · exact hst pid2 hmem
    · exact Effect.noConfusion hw
  · split
    · intro hmem
      simp only [List.mem_append, List.mem_map] at hmem
      rcases hmem with hmem | ⟨w, _, hw⟩
      · exact hst pid2 hmem
      · exact Effect.noConfusion hw
    · split
      · intro hmem
        simp only [List.mem_append, List.mem_map] at hmem
        rcases hmem with hmem | ⟨w, _, hw⟩
        · exact hst pid2 hmem
        · exact Effect.noConfusion hw
      · split
        · intro hmem
          simp only [List.mem_append, List.mem_map, List.mem_singleton] at hmem
          rcases hmem with (hmem | ⟨w, _, hw⟩) | hw
          · exact hst pid2 hmem
          · exact Effect.noConfusion hw
          · exact Effect.noConfusion hw
        · rename_i pid heq
          exact absurd heq (hq pid)

/-- C5: for every submission response body, an error indicator makes
submission raise with that error text; no error indicator but also no job
identifier makes it raise with the unexpected payload; otherwise it returns
the job identifier; and whenever submission raises, no polling effect ever
occurs in the handler's trace. -/
theorem c5_submission (r : QueueResp) :
    (∀ t, r.error = some t →
      queue_prompt r = .error (.runtimeError ("ComfyUI rejected prompt: " ++ t))) ∧
    (r.error = none → r.prompt_id = none →
      queue_prompt r = .error (.runtimeError ("No prompt_id in response: "
        ++ renderQueueResp r))) ∧
    (∀ pid, r.error = none → r.prompt_id = some pid → queue_prompt r = .ok pid) ∧
    (∀ (job : Job) (env : Env) (proc : Bool) (e : PyErr), env.queueResp = r →
      queue_prompt r = .error e →
      ∀ pid2, Effect.poll pid2 ∉ (handler job env proc).2.1) := by
  refine ⟨?_, ?_, ?_, ?_⟩
  · intro t ht
    unfold queue_prompt
    rw [ht]
  · intro he hp
    unfold queue_prompt
    rw [he, hp]
  · intro pid he hp
    unfold queue_prompt
    rw [he, hp]
  · intro job env proc e hqr hqe pid2
    have hq : ∀ pid, queue_prompt env.queueResp ≠ .ok pid := by
      intro pid hcon
      rw [hqr, hqe] at hcon
      exact Except.noConfusion hcon
    show Effect.poll pid2 ∉ (handlerBody job env proc).2.1
    unfold handlerBody
    cases hj : job.input with
    | none => simp [hj]
    | some ji =>
      cases hji : ji.image with
      | none => simp [hj, hji]
      | some img =>
        by_cases hp : proc
        · simp only [hj, hji, hp, if_true]
          exact poll_notin_handlerAfterStart ji img env [] (by simp) hq pid2
        · by_cases hs : env.startOk
          · simp only [hj, hji, hp, hs, Bool.false_eq_true, if_false, if_true]
            exact poll_notin_handlerAfterStart ji img env [Effect.startServer]
              (by simp) hq pid2
          · simp [hj, hji, hp, hs]

/-- Witness for C5: the three response shapes at concrete inputs, and
absence of polling on a rejected submission. -/
theorem c5_witness :
    queue_prompt ⟨some "bad node", none⟩ =
      .error (.runtimeError "ComfyUI rejected prompt: bad node") ∧
    queue_prompt ⟨none, none⟩ =
      .error (.runtimeError ("No prompt_id in response: "
        ++ renderQueueResp ⟨none, none⟩)) ∧
    queue_prompt ⟨none, some "pid7"⟩ = .ok "pid7" ∧
    Effect.poll "p1" ∉ (handler jobOk envErrQ false).2.1 :=
  ⟨(c5_submission ⟨some "bad node", none⟩).1 "bad node" rfl,
   (c5_submission ⟨none, none⟩).2.1 rfl rfl,
   (c5_submission ⟨none, some "pid7"⟩).2.2.1 "pid7" rfl rfl,
   (c5_submission ⟨some "boom", none⟩).2.2.2 jobOk envErrQ false
     (.runtimeError "ComfyUI rejected prompt: boom") rfl rfl "p1"⟩

/-!
Input staging. -/

/-- Counterexample for C6: a 304 response — not a 2xx status — does not make
staging raise; the body is persisted to the staged file. -/
theorem c6_counterexample :
    ¬(200 ≤ 304 ∧ 304 < 300) ∧
    save_input_image "http://example.com/a.png" "in.png" fetch304 =
      (.ok "in.png", [(pathJoin INPUT_DIR "in.png", [7, 7])]) := by
  refine ⟨by decide, by decide⟩

/-- C6 (amended): for every image supplied as an http:// or https:// URL,
staging performs a GET; if the final response status is 4xx or 5xx (the
statuses `raise_for_status` raises on), staging raises before any file is
written, so no staged file exists on that error path; any other status
persists the response body byte-for-byte to the staged input file. -/
theorem c6_url_staging (url filename : String)
    (fetch : String → Except PyErr (Nat × List Nat)) (status : Nat) (body : List Nat)
    (hu : startswith url "http://" = true ∨ startswith url "https://" = true)
    (hf : fetch url = .ok (status, body)) :
    ((400 ≤ status ∧ status < 600) →
      save_input_image url filename fetch = (.error (.httpError status), [])) ∧
    (¬(400 ≤ status ∧ status < 600) →
      save_input_image url filename fetch =
        (.ok filename, [(pathJoin INPUT_DIR filename, body)])) := by
  have hcond : (startswith url "http://" || startswith url "https://") = true := by
    rcases hu with h | h <;> simp [h]
  constructor
  · intro h45
    unfold save_input_image
    rw [hcond, if_pos rfl, hf]
    simp [h45]
  · intro h45
    unfold save_input_image
    rw [hcond, if_pos rfl, hf]
    simp [h45]

/-- Witness for the amended C6: a 200 fetch persists the body; a 404 fetch
raises with no file written. -/
theorem c6_witness :
    save_input_image "http://good/img.png" "in.png" fetchW =
      (.ok "in.png", [(pathJoin INPUT_DIR "in.png", [9, 9, 9])]) ∧
    save_input_image "http://bad/img.png" "in.png" fetchW =
      (.error (.httpError 404), []) :=
  ⟨(c6_url_staging "http://good/img.png" "in.png" fetchW 200 [9, 9, 9]
      (Or.inl (by decide)) (by decide)).2 (by decide),
   (c6_url_staging "http://bad/img.png" "in.png" fetchW 404 []
      (Or.inl (by decide)) (by decide)).1 (by decide)⟩

theorem stripHeader_append (p r : List Char) (hp : ',' ∉ p) :
    stripHeader (p ++ ',' :: r) = r := by
  unfold stripHeader
  rw [if_pos (by simp)]
  induction p with
  | nil => simp
  | cons c cs ih =>
    have hc : c ≠ ',' := fun hc => hp (hc ▸ List.mem_cons_self c cs)
    have hcs : ',' ∉ cs := fun hm => hp (List.mem_cons_of_mem c hm)
    simpa [List.dropWhile_cons, hc] using ih hcs

theorem stripHeader_no_comma (cs : List Char) (h : ',' ∉ cs) :
    stripHeader cs = cs := by
  unfold stripHeader
  rw [if_neg h]

/-- C7: for every inline base64 payload carrying a data-URL prefix,
staging strips exactly the prefix up to and including the first comma and
base64-decodes the remainder before persisting the decoded bytes; a payload
without such a prefix (no comma) is decoded whole. -/
theorem c7_data_url (s : String) (p r : List Char) (filename : String)
    (fetch : String → Except PyErr (Nat × List Nat))
    (hh1 : startswith s "http://" = false) (hh2 : startswith s "https://" = false) :
    (s.toList = p ++ ',' :: r → ',' ∉ p →
      save_input_image s filename fetch =
        (match b64decode r with
         | .ok bytes => (.ok filename, [(pathJoin INPUT_DIR filename, bytes)])
         | .error e => (.error e, []))) ∧
    (',' ∉ s.toList →
      save_input_image s filename fetch =
        (match b64decode s.toList with
         | .ok bytes => (.ok filename, [(pathJoin INPUT_DIR filename, bytes)])
         | .error e => (.error e, []))) := by
  have hcond : (startswith s "http://" || startswith s "https://") = false := by
    simp [hh1, hh2]
  constructor
  · intro hs hp
    unfold save_input_image
    rw [hcond, if_neg (by simp), hs, stripHeader_append p r hp]
    cases b64decode r <;> rfl
  · intro hnc
    unfold save_input_image
    rw [hcond, if_neg (by simp), stripHeader_no_comma s.toList hnc]
    cases b64decode s.toList <;> rfl

/-- Witness for C7: the canonical data-URL payload decodes to the three zero
bytes of "AAAA", and a bare payload decodes whole. -/
theorem c7_witness :
    save_input_image "data:image/png;base64,AAAA" "in.png" fetchW =
      (.ok "in.png", [(pathJoin INPUT_DIR "in.png", [0, 0, 0])]) ∧
    save_input_image "/wlg" "in.png" fetchW =
      (.ok "in.png", [(pathJoin INPUT_DIR "in.png", [255, 9, 96])]) := by
  constructor
  · rw [(c7_data_url "data:image/png;base64,AAAA" "data:image/png;base64".toList
      "AAAA".toList "in.png" fetchW (by decide) (by decide)).1 (by decide) (by decide)]
    decide
  · rw [(c7_data_url "/wlg" [] "/wlg".toList "in.png" fetchW
      (by decide) (by decide)).2 (by decide)]
    decide

/-!
The handler boundary. -/

theorem resolveResponse_ok {x : Except PyErr Response} {v : String} {s : Int}
    (h : resolveResponse x = .ok v s) : x = .ok (.ok v s) := by
  cases x with
  | error e => exact Response.noConfusion h
  | ok r =>
    cases r with
    | ok v2 s2 =>
      injection h with h1 h2
      rw [h1, h2]
    | err m => exact Response.noConfusion h

/-- On a successful run, the returned seed is the request seed (default: the
one random draw of the handler), and every submitted workflow carries that
same seed at node 3's seed input. -/
theorem handlerAfterStart_ok_seed {ji : JobInput} {img : String} {env : Env}
    {st tr : List Effect} {v : String} {s : Int} {p2 : Bool}
    (hst : ∀ wf, Effect.submit wf ∉ st)
    (h : handlerAfterStart ji img env st = (.ok (.ok v s), tr, p2)) :
    s = ji.seed.getD env.randSeed ∧
    ∀ wf, Effect.submit wf ∈ tr → getNodeInput wf "3" "seed" = some (WVal.i s) := by
  unfold handlerAfterStart at h
  split at h
  · simp at h
  · split at h
    · simp at h
    · split at h
      · simp at h
      · split at h
        · simp at h
        · split at h
          · simp at h
          · split at h
            · simp at h
            · split at h
              · simp at h
              · rename_i sc1 fn1 ws hsave sc2 wf0 htmpl sc3 wfM hmod sc4 pid hq
                  sc5 hist hwait sc6 ofile hget sc7 bytes hread
                simp only [Prod.mk.injEq] at h
                obtain ⟨hres, htr, hp⟩ := h
                injection hres with hres
                injection hres with hv hs
                refine ⟨hs.symm, ?_⟩
                intro wf hwf
                rw [← htr] at hwf
                simp only [List.mem_append, List.mem_map, List.mem_cons,
                  List.mem_singleton, List.not_mem_nil, or_false] at hwf
                rcases hwf with ((hin | ⟨w, _, hw⟩) | hsub | hpo | hrd | hrm)
                · exact absurd hin (hst wf)
                · exact Effect.noConfusion hw
                · injection hsub with hwf2
                  rw [hwf2, ← hs]
                  exact (modify_workflow_fields hmod).1
                · exact Effect.noConfusion hpo
                · exact Effect.noConfusion hrd
                · exact Effect.noConfusion hrm

/-- C3: for every inbound job payload, the handler returns either the
success shape or the error shape, never anything else; and every exception
raised while processing is caught at the top level and converted into the
error shape carrying the exception's message. -/
theorem c3_error_boundary (job : Job) (env : Env) (proc : Bool) :
    ((∃ v s, (handler job env proc).1 = Response.ok v s) ∨
      (∃ m, (handler job env proc).1 = Response.err m)) ∧
    (∀ e tr p2, handlerBody job env proc = (.error e, tr, p2) →
      handler job env proc = (.err (pyMsg e), tr, p2)) := by
  constructor
  · cases (handler job env proc).1 with
    | ok v s => exact Or.inl ⟨v, s, rfl⟩
    | err m => exact Or.inr ⟨m, rfl⟩
  · intro e tr p2 hb
    unfold handler
    rw [hb]
    rfl

/-- Witness for C3: a job with no `input` key raises `KeyError` inside the
try block and the handler converts it to the error shape. -/
theorem c3_witness :
    handler jobNoInput envOk false = (Response.err "KeyError: input", [], false) :=
  (c3_error_boundary jobNoInput envOk false).2 (.keyError "input") [] false rfl

/-- C9: if the required field `image` is missing from the job input, the
handler returns the `Missing required field: image` error without attempting
any work — the trace is empty (no server start, no staging, no submission,
no polling) and the process flag is unchanged. -/
theorem c9_missing_image (job : Job) (env : Env) (proc : Bool) (ji : JobInput)
    (h1 : job.input = some ji) (h2 : ji.image = none) :
    handler job env proc = (Response.err "Missing required field: image", [], proc) := by
  unfold handler handlerBody
  rw [h1]
  simp only [h2]
  rfl

/-- Witness for C9 at a concrete imageless job. -/
theorem c9_witness :
    handler ⟨some ⟨none, some "sway", none, none, none⟩⟩ envOk false =
      (Response.err "Missing required field: image", [], false) :=
  c9_missing_image ⟨some ⟨none, some "sway", none, none, none⟩⟩ envOk false
    ⟨none, some "sway", none, none, none⟩ rfl rfl

/-- C10: on every successful invocation the returned seed equals the seed
written into node 3's seed input of the submitted job-graph; a supplied seed
is used verbatim, and an absent seed is replaced by the single random draw
of the handler, which is both injected and returned. -/
theorem c10_seed (job : Job) (env : Env) (proc : Bool) (ji : JobInput)
    (v : String) (s : Int) (tr : List Effect) (p2 : Bool)
    (hji : job.input = some ji)
    (h : handler job env proc = (Response.ok v s, tr, p2)) :
    s = ji.seed.getD env.randSeed ∧
    ∀ wf, Effect.submit wf ∈ tr → getNodeInput wf "3" "seed" = some (WVal.i s) := by
  unfold handler at h
  rw [Prod.ext_iff] at h
  obtain ⟨h1, h2⟩ := h
  have hb : handlerBody job env proc = (.ok (.ok v s), tr, p2) :=
    Prod.ext_iff.mpr ⟨resolveResponse_ok h1, h2⟩
  unfold handlerBody at hb
  rw [hji] at hb
  simp only at hb
  cases hi : ji.image with
  | none =>
    rw [hi] at hb
    simp at hb
  | some img =>
    rw [hi] at hb
    simp only at hb
    by_cases hp : proc
    · rw [if_pos hp] at hb
      exact handlerAfterStart_ok_seed (fun wf => List.not_mem_nil _) hb
    · rw [if_neg hp] at hb
      by_cases hs : env.startOk
      · rw [if_pos hs] at hb
        exact handlerAfterStart_ok_seed (fun wf hc => by simp at hc) hb
      · rw [if_neg hs] at hb
        simp at hb

/-- Witness for C10: a full successful run with no request seed; the drawn
seed 42 is returned and sits in every submitted workflow's node 3. -/
theorem c10_witness :
    (42 : Int) = jobOkInput.seed.getD envOk.randSeed ∧
    ∀ wf, Effect.submit wf ∈ (handler jobOk envOk false).2.1 →
      getNodeInput wf "3" "seed" = some (WVal.i 42) :=
  c10_seed jobOk envOk false jobOkInput "AQID" 42
    (handler jobOk envOk false).2.1 true rfl rfl

end Wan
